import Mathlib

/-!
Verification development for the mcp-unipile server
(src/mcp_server_unipile/server.py and src/mcp_server_unipile/unipile_client.py).

The Python code is shallowly embedded: JSON/Python values are the inductive
type `PyVal` (JSON-decoded dictionaries have string keys), Python runtime
errors are the type `PyErr`, and fallible Python expressions are modelled
as `Except PyErr PyVal`.  Each `try/except` block of the source becomes an
explicit `match` on the `Except` result.  HTTP transport is modelled by
passing the upstream responses in as values: a single response is an
`Except PyErr PyVal` (a network/HTTP-status failure or a decoded JSON
body), and the paginated message endpoint is modelled by the list of
successive page bodies the upstream returns.  The `json.dumps`/`json.loads`
round trip between the wrapper methods is elided (values are kept as
`PyVal` rather than serialized strings); `json.loads` applied to the
`original` field of a message is an explicit parameter `loads`, since it
is a Python standard-library function, not code of this repository.
-/

/-- Model of a Python/JSON value as produced by `json.loads`.  Dictionary
keys are strings (always true for JSON-decoded data). -/
inductive PyVal where
  | str (s : String) : PyVal
  | int (n : Int) : PyVal
  | bool (b : Bool) : PyVal
  | null : PyVal
  | list (xs : List PyVal) : PyVal
  | dict (xs : List (String × PyVal)) : PyVal

/-- Model of the Python exceptions that the embedded code can raise. -/
inductive PyErr where
  | typeError (msg : String) : PyErr
  | keyError (key : String) : PyErr
  | attributeError (msg : String) : PyErr
  | valueError (msg : String) : PyErr
  | jsonDecodeError (msg : String) : PyErr
  | requestError (msg : String) : PyErr

/-- Python `str(e)` on an exception.  For `KeyError` Python renders the
repr of the missing key, i.e. the key wrapped in single quotes. -/
def pyErrStr : PyErr → String
  | .typeError m => m
  | .keyError k => "\x27" ++ k ++ "\x27"
  | .attributeError m => m
  | .valueError m => m
  | .jsonDecodeError m => m
  | .requestError m => m

/-- First-match association-list lookup (Python dicts have unique keys, so
first match is the dict lookup). -/
def dLookup : List (String × PyVal) → String → Option PyVal
  | [], _ => none
  | (k0, v0) :: rest, k => if k0 = k then some v0 else dLookup rest k

/-- Python `d[k] = v`: an existing key keeps its position and gets the new
value; a new key is appended (insertion order). -/
def insertAssoc : List (String × PyVal) → String → PyVal → List (String × PyVal)
  | [], k, v => [(k, v)]
  | (k0, v0) :: rest, k, v =>
    if k0 = k then (k0, v) :: rest else (k0, v0) :: insertAssoc rest k v

/-- Python truthiness of a value. -/
def isTruthy : PyVal → Bool
  | .str s => !(s == "")
  | .int n => !(n == 0)
  | .bool b => b
  | .null => false
  | .list xs => !xs.isEmpty
  | .dict xs => !xs.isEmpty

/-- Python `v == some_string` (only a `str` can equal a string literal). -/
def pyEqStr (v : PyVal) (s : String) : Bool :=
  match v with
  | .str t => t == s
  | _ => false

def PyVal.isStr : PyVal → Bool
  | .str _ => true
  | _ => false

def PyVal.isList : PyVal → Bool
  | .list _ => true
  | _ => false

/-- Python string rendering of a value inside an f-string.  Container
reprs are abbreviated: the claims only ever format strings here. -/
def pyStr : PyVal → String
  | .str s => s
  | .null => "None"
  | .bool true => "True"
  | .bool false => "False"
  | .int n => toString n
  | .list _ => "[...]"
  | .dict _ => "\x7b...\x7d"

/-- Python subscript `v[k]` with a string key. -/
def pyGetItem (v : PyVal) (k : String) : Except PyErr PyVal :=
  match v with
  | .dict d =>
    match dLookup d k with
    | some x => Except.ok x
    | none => Except.error (.keyError k)
  | .list _ => Except.error (.typeError "list indices must be integers or slices, not str")
  | .str _ => Except.error (.typeError "string indices must be integers")
  | _ => Except.error (.typeError "object is not subscriptable")

/-- Python `v.get(k, dflt)`: only dictionaries have `.get`. -/
def pyDictGetD (v : PyVal) (k : String) (dflt : PyVal) : Except PyErr PyVal :=
  match v with
  | .dict d => Except.ok ((dLookup d k).getD dflt)
  | _ => Except.error (.attributeError "object has no attribute get")

/-- Python `v.get(k)` (default `None`). -/
def pyDictGet (v : PyVal) (k : String) : Except PyErr PyVal :=
  pyDictGetD v k PyVal.null

/-- Helper for the substring test: does `needle` occur in `hay`? -/
def containsSub : List Char → List Char → Bool
  | [], needle => needle.isEmpty
  | h :: t, needle => needle.isPrefixOf (h :: t) || containsSub t needle

/-- Python substring test used by `k in v` when `v` is a `str`. -/
def strContainsSub (hay needle : String) : Bool :=
  containsSub hay.data needle.data

/-- Python `k in v` for a string `k`: key membership for dicts, element
membership for lists, substring test for strings, `TypeError` otherwise. -/
def pyContains (k : String) (v : PyVal) : Except PyErr Bool :=
  match v with
  | .dict d => Except.ok (dLookup d k).isSome
  | .list xs => Except.ok (xs.any (fun x => pyEqStr x k))
  | .str s => Except.ok (strContainsSub s k)
  | _ => Except.error (.typeError "argument is not iterable")

/-- Python iteration `for x in v`: lists yield elements, dicts yield keys,
strings yield one-character strings, anything else raises `TypeError`. -/
def iterElems (v : PyVal) : Except PyErr (List PyVal) :=
  match v with
  | .list xs => Except.ok xs
  | .dict d => Except.ok (d.map (fun kv => PyVal.str kv.1))
  | .str s => Except.ok (s.data.map (fun c => PyVal.str (String.mk [c])))
  | _ => Except.error (.typeError "object is not iterable")

/-- Python `v[k] = x` on a dictionary value, returning the updated value. -/
def pySetItem (v : PyVal) (k : String) (x : PyVal) : Except PyErr PyVal :=
  match v with
  | .dict d => Except.ok (.dict (insertAssoc d k x))
  | _ => Except.error (.typeError "object does not support item assignment")

/-- Drop leading whitespace from a character list. -/
def dropWs : List Char → List Char
  | [] => []
  | c :: t => if c.isWhitespace then dropWs t else c :: t

/-- Python `s.strip()`: remove leading and trailing whitespace. -/
def pyStrip (s : String) : String :=
  String.mk ((dropWs (dropWs s.data).reverse).reverse)

/-- Fuel-indexed worker for `pyReplace`; the fuel is the input length, an
upper bound on the number of steps. -/
def pyReplaceAux (pat rep : List Char) : Nat → List Char → List Char
  | 0, s => s
  | _ + 1, [] => []
  | fuel + 1, c :: t =>
    if !pat.isEmpty && pat.isPrefixOf (c :: t) then
      rep ++ pyReplaceAux pat rep fuel ((c :: t).drop pat.length)
    else c :: pyReplaceAux pat rep fuel t

/-- Python `s.replace(pat, rep)` for a non-empty pattern: replace every
occurrence, left to right. -/
def pyReplace (s pat rep : String) : String :=
  String.mk (pyReplaceAux pat.data rep.data s.data.length s.data)

/-- Python `v.replace(pat, rep)`: only strings have `.replace`. -/
def pyStrReplace (v : PyVal) (pat rep : String) : Except PyErr String :=
  match v with
  | .str s => Except.ok (pyReplace s pat rep)
  | _ => Except.error (.attributeError "object has no attribute replace")

/-- The uniform error payload `json.dumps(\x7b"error": str(e)\x7d)` that every
handler produces, kept at the value level. -/
def errDict (msg : String) : PyVal :=
  .dict [("error", .str msg)]

/-- Python `isinstance(v, dict) and "error" in v` (server.py:123, 229). -/
def isErrorDict (v : PyVal) : Bool :=
  match v with
  | .dict d => (dLookup d "error").isSome
  | _ => false

namespace UnipileClient

/-- Embeds `UnipileClient.get_accounts` (unipile_client.py:22-41).  `resp`
is the transport result: a raised `requests` error or the decoded JSON
body.  On an `AccountList` envelope the `items` array is returned,
otherwise the empty list. -/
def get_accounts (resp : Except PyErr PyVal) : Except PyErr PyVal :=
  match resp with
  | .error e => .error e
  | .ok data =>
    match pyDictGetD data "object" PyVal.null with
    | .error e => .error e
    | .ok obj =>
      if pyEqStr obj "AccountList" then pyDictGetD data "items" (.list [])
      else .ok (.list [])

/-- Embeds `UnipileClient.get_chats` (unipile_client.py:43-73).  Note that
this method takes no parameters besides `self` in the source. -/
def get_chats (resp : Except PyErr PyVal) : Except PyErr PyVal :=
  match resp with
  | .error e => .error e
  | .ok data =>
    match pyDictGetD data "object" PyVal.null with
    | .error e => .error e
    | .ok obj =>
      if pyEqStr obj "ChatList" then pyDictGetD data "items" (.list [])
      else .ok (.list [])

/-- Embeds the pagination loop of `UnipileClient.get_all_messages`
(unipile_client.py:75-130), materialized as by `get_messages_as_list`.
`responses` is the sequence of page bodies successive transport calls
return; requesting a page beyond the provided ones is a transport failure.
`batchSize` only enters the request query parameters, which the
response-sequence model absorbs, so it does not influence the loop.
The result pairs the yielded messages with the number of transport calls
made. -/
def get_all_messages_pages (batchSize : PyVal) :
    List PyVal → Except PyErr (List PyVal × Nat)
  | [] => .error (.requestError "connection error")
  | r :: rest =>
    match pyDictGetD r "object" PyVal.null with
    | .error e => .error e
    | .ok obj =>
      if pyEqStr obj "MessageList" then
        match pyDictGetD r "items" (.list []) with
        | .error e => .error e
        | .ok items =>
          match iterElems items with
          | .error e => .error e
          | .ok msgs =>
            match pyDictGetD r "cursor" PyVal.null with
            | .error e => .error e
            | .ok cursor =>
              if isTruthy cursor then
                match get_all_messages_pages batchSize rest with
                | .error e => .error e
                | .ok (more, n) => .ok (msgs ++ more, n + 1)
              else .ok (msgs, 1)
      else .ok ([], 1)

/-- Embeds `UnipileClient.get_messages_as_list` (unipile_client.py:132-146):
`list(self.get_all_messages(chat_id, batch_size))`.  A failure while the
generator runs aborts the whole list construction. -/
def get_messages_as_list (batchSize : PyVal) (responses : List PyVal) :
    Except PyErr (List PyVal) :=
  match get_all_messages_pages batchSize responses with
  | .error e => .error e
  | .ok (msgs, _) => .ok msgs

end UnipileClient

namespace UnipileWrapper

/-- Embeds the per-participant body of the `for participant in participants`
loop of `UnipileWrapper._extract_person_info` (server.py:38-51).  The
result is `none` when the guard conditions skip the participant,
`some (backendUrn, person_dict)` when an entry is recorded, and an error
when a Python exception is raised (missing `backendUrn` key, `.get` on a
non-dictionary, an unhashable or non-string dictionary key, ...).  A
non-string `backendUrn` is approximated as an error (hashable non-string
JSON keys such as `null` are a pathological upstream shape the claims do
not touch). -/
def processParticipant (p : PyVal) : Except PyErr (Option (String × PyVal)) :=
  match pyContains "participantType" p with
  | .error e => .error e
  | .ok false => .ok none
  | .ok true =>
    match pyGetItem p "participantType" with
    | .error e => .error e
    | .ok pt =>
      match pyContains "member" pt with
      | .error e => .error e
      | .ok false => .ok none
      | .ok true =>
        match pyGetItem pt "member" with
        | .error e => .error e
        | .ok member =>
          match pyDictGet member "firstName" with
          | .error e => .error e
          | .ok fn =>
            if isTruthy fn then
              match pyGetItem member "firstName" with
              | .error e => .error e
              | .ok fnv =>
                match fnv with
                | .dict fnd =>
                  match pyDictGetD (.dict fnd) "text" (.str "") with
                  | .error e => .error e
                  | .ok firstName =>
                    match pyDictGet member "lastName" with
                    | .error e => .error e
                    | .ok ln =>
                      match (if isTruthy ln then
                               match pyGetItem member "lastName" with
                               | .error e => Except.error e
                               | .ok lnv => pyDictGetD lnv "text" (.str "")
                             else Except.ok (.str "")) with
                      | .error e => .error e
                      | .ok lastName =>
                        match pyDictGet member "headline" with
                        | .error e => .error e
                        | .ok hl =>
                          match (if isTruthy hl then
                                   match pyDictGetD member "headline" (.dict []) with
                                   | .error e => Except.error e
                                   | .ok hv => pyDictGetD hv "text" (.str "")
                                 else Except.ok (.str "")) with
                          | .error e => .error e
                          | .ok headline =>
                            match pyDictGet member "pronoun" with
                            | .error e => .error e
                            | .ok pr =>
                              match (if isTruthy pr then
                                       match pyDictGetD member "pronoun" (.dict []) with
                                       | .error e => Except.error e
                                       | .ok pv => pyDictGetD pv "standardizedPronoun" (.str "")
                                     else Except.ok (.str "")) with
                              | .error e => .error e
                              | .ok pronoun =>
                                let name := pyStrip (pyStr firstName ++ " " ++ pyStr lastName)
                                match pyGetItem p "backendUrn" with
                                | .error e => .error e
                                | .ok (.str urn) =>
                                  .ok (some (urn, .dict [("name", .str name),
                                                         ("headline", headline),
                                                         ("pronoun", pronoun)]))
                                | .ok _ => .error (.typeError "unhashable or non-string dict key")
                | _ => .ok none
            else .ok none

/-- Embeds the `for participant in participants` loop of
`_extract_person_info`, threading the `person_info` accumulator. -/
def extractLoop : List PyVal → List (String × PyVal) →
    Except PyErr (List (String × PyVal))
  | [], acc => .ok acc
  | p :: rest, acc =>
    match processParticipant p with
    | .error e => .error e
    | .ok none => extractLoop rest acc
    | .ok (some (k, v)) => extractLoop rest (insertAssoc acc k v)

/-- Embeds the body of the `try` block of `_extract_person_info`
(server.py:34-52). -/
def extract_person_info_body (j : PyVal) : Except PyErr (List (String × PyVal)) :=
  match pyContains "conversation" j with
  | .error e => .error e
  | .ok false => .ok []
  | .ok true =>
    match pyGetItem j "conversation" with
    | .error e => .error e
    | .ok conv =>
      match pyDictGetD conv "conversationParticipants" (.list []) with
      | .error e => .error e
      | .ok parts =>
        match iterElems parts with
        | .error e => .error e
        | .ok elems => extractLoop elems []

/-- Embeds `UnipileWrapper._extract_person_info` (server.py:32-55): the
catch-all `except` returns the empty map. -/
def _extract_person_info (j : PyVal) : List (String × PyVal) :=
  match extract_person_info_body j with
  | .ok m => m
  | .error _ => []

/-- Embeds `json.loads(message["original"])` (server.py:72): `json.loads`
raises `TypeError` on a non-string argument, and `JSONDecodeError` on a
string that is not valid JSON; the parser itself is the standard library,
passed in as `loads`. -/
def tryLoads (loads : String → Except String PyVal) (v : PyVal) :
    Except PyErr PyVal :=
  match v with
  | .str s =>
    match loads s with
    | .ok j => .ok j
    | .error m => .error (.jsonDecodeError m)
  | _ => .error (.typeError "the JSON object must be str, bytes or bytearray")

/-- The five always-present fields of the reduced core message built at
server.py:61-67, as a function of the raw message dictionary. -/
def coreBase (d : List (String × PyVal)) : List (String × PyVal) :=
  [("id", (dLookup d "id").getD (.str "")),
   ("text", (dLookup d "text").getD (.str "")),
   ("timestamp", (dLookup d "timestamp").getD (.str "")),
   ("sender_id", (dLookup d "sender_id").getD (.str "")),
   ("chat_info", (dLookup d "chat_info").getD (.dict []))]

/-- Embeds the body of the outer `try` block of `_extract_core_message`
(server.py:59-79).  The inner `try/except json.JSONDecodeError: pass`
is the `jsonDecodeError` branch; every other exception (in particular the
`TypeError` that `json.loads` raises on a non-string `original`)
propagates to the outer handler. -/
def extract_core_message_body (loads : String → Except String PyVal)
    (message : PyVal) : Except PyErr PyVal :=
  match message with
  | .dict d =>
    let base := coreBase d
    match dLookup d "original" with
    | none => .ok (.dict base)
    | some ov =>
      match tryLoads loads ov with
      | .ok od =>
        let pi := _extract_person_info od
        if pi.isEmpty then .ok (.dict base)
        else .ok (.dict (base ++ [("participants", .dict pi)]))
      | .error (.jsonDecodeError _) => .ok (.dict base)
      | .error e => .error e
  | _ => .error (.attributeError "object has no attribute get")

/-- Embeds `UnipileWrapper._extract_core_message` (server.py:57-82): the
catch-all `except` returns the input message unchanged. -/
def _extract_core_message (loads : String → Except String PyVal)
    (message : PyVal) : PyVal :=
  match extract_core_message_body loads message with
  | .ok v => v
  | .error _ => message

end UnipileWrapper

namespace UnipileWrapper

/-- Embeds `UnipileWrapper.get_accounts` (server.py:84-93): any exception
is converted to the uniform error payload. -/
def get_accounts (resp : Except PyErr PyVal) : PyVal :=
  match UnipileClient.get_accounts resp with
  | .ok v => v
  | .error e => errDict (pyErrStr e)

/-- The message of the `TypeError` Python raises at server.py:101, where
`self.client.get_chats(account_id=account_id, limit=limit)` passes keyword
arguments that `UnipileClient.get_chats` (unipile_client.py:43, signature
`def get_chats(self)`) does not accept. -/
def getChatsKwargMsg : String :=
  "get_chats() got an unexpected keyword argument \x27account_id\x27"

/-- Embeds the body of the `try` block of `UnipileWrapper.get_chats`
(server.py:97-102).  The `_MESSAGING` suffix strip (server.py:100) is
evaluated, and then the call `self.client.get_chats(account_id=...,
limit=...)` raises `TypeError` before any HTTP request is issued, because
the client method takes no parameters.  The remainder of the `try` body is
therefore unreachable. -/
def get_chats_body (account_id _limit : PyVal) : Except PyErr PyVal :=
  match pyStrReplace account_id "_MESSAGING" "" with
  | .error e => .error e
  | .ok _ => .error (.typeError getChatsKwargMsg)

/-- Embeds `UnipileWrapper.get_chats` (server.py:95-105): every exception
is caught and converted to the uniform error payload. -/
def get_chats (account_id limit : PyVal) : PyVal :=
  match get_chats_body account_id limit with
  | .ok v => v
  | .error e => errDict (pyErrStr e)

/-- Embeds `UnipileWrapper.get_chat_messages` (server.py:107-116):
materialize the paginated messages, normalize each one, or convert the
exception to the error payload.  `responses` is the page sequence the
upstream message endpoint returns for this chat. -/
def get_chat_messages (loads : String → Except String PyVal)
    (responses : List PyVal) (batchSize : PyVal) : PyVal :=
  match UnipileClient.get_messages_as_list batchSize responses with
  | .ok msgs => .list (msgs.map (_extract_core_message loads))
  | .error e => errDict (pyErrStr e)

/-- Embeds the `for chat in chats` loop of `UnipileWrapper.get_all_messages`
(server.py:129-135).  `perChat` maps a chat id (as interpolated into the
request URL) to the page sequence the upstream returns for that chat; the
client is called with its default `batch_size` of 100 (server.py:132). -/
def allMessagesLoop (loads : String → Except String PyVal)
    (perChat : String → List PyVal) :
    List PyVal → List PyVal → Except PyErr (List PyVal)
  | [], acc => .ok acc
  | chat :: rest, acc =>
    match pyDictGet chat "id" with
    | .error e => .error e
    | .ok cid =>
      if isTruthy cid then
        match UnipileClient.get_messages_as_list (.int 100) (perChat (pyStr cid)) with
        | .error e => .error e
        | .ok msgs =>
          allMessagesLoop loads perChat rest
            (acc ++ msgs.map (_extract_core_message loads))
      else allMessagesLoop loads perChat rest acc

/-- Embeds `UnipileWrapper.get_all_messages` (server.py:118-140): list the
chats for the account, return the error payload unchanged if the chat
listing produced one, otherwise fetch and normalize every chat's messages.
Because `UnipileWrapper.get_chats` always returns the error payload (see
`get_chats_body`), the chat iteration is dead code in the source. -/
def get_all_messages (loads : String → Except String PyVal)
    (perChat : String → List PyVal) (account_id limit : PyVal) : PyVal :=
  let chats := get_chats account_id limit
  if isErrorDict chats then chats
  else
    match iterElems chats with
    | .error e => errDict (pyErrStr e)
    | .ok chatList =>
      match allMessagesLoop loads perChat chatList [] with
      | .ok msgs => .list msgs
      | .error e => errDict (pyErrStr e)

/-- Required-secret error messages raised at server.py:24 and server.py:28. -/
def dsnRequiredMsg : String := "UNIPILE_DSN environment variable is required"

def apiKeyRequiredMsg : String := "UNIPILE_API_KEY environment variable is required"

/-- State the constructed `UnipileClient` holds (unipile_client.py:16-20):
no network call is made during construction. -/
structure ClientState where
  base_url : String
  headers : List (String × String)

/-- Python `a or b` on optional strings: the first truthy operand
(`None` and the empty string are falsy). -/
def pyOrStr : Option String → Option String → Option String
  | some s, b => if s = "" then b else some s
  | none, b => b

/-- Truthiness of an optional string (`None` and `""` are falsy). -/
def optTruthy : Option String → Bool
  | none => false
  | some s => !(s == "")

/-- Embeds `UnipileWrapper.__init__` (server.py:18-30): each secret falls
back from the constructor argument to the environment, and a falsy result
raises `ValueError` with the corresponding message before the
`UnipileClient` (and hence its base URL and headers) is built.  `env`
models `os.getenv`. -/
def init (dsn0 api_key0 : Option String) (env : String → Option String) :
    Except String ClientState :=
  let dsn := pyOrStr dsn0 (env "UNIPILE_DSN")
  if optTruthy dsn = false then .error dsnRequiredMsg
  else
    let api_key := pyOrStr api_key0 (env "UNIPILE_API_KEY")
    if optTruthy api_key = false then .error apiKeyRequiredMsg
    else
      .ok { base_url := "https://" ++ dsn.getD "",
            headers := [("X-API-KEY", api_key.getD ""), ("accept", "application/json")] }

end UnipileWrapper

/-- Embeds the `chat_info` dictionary literal built at server.py:244-249. -/
def chatInfoOf (chat : PyVal) : Except PyErr PyVal :=
  match pyDictGet chat "id" with
  | .error e => .error e
  | .ok i =>
    match pyDictGet chat "name" with
    | .error e => .error e
    | .ok n =>
      match pyDictGet chat "account_type" with
      | .error e => .error e
      | .ok at0 =>
        match pyDictGet chat "account_id" with
        | .error e => .error e
        | .ok ai =>
          .ok (.dict [("id", i), ("name", n), ("account_type", at0), ("account_id", ai)])

/-- Embeds the `for message in messages` tagging loop (server.py:243-249):
each message gets `chat_info` set to its chat's metadata. -/
def tagMessages (chat : PyVal) : List PyVal → Except PyErr (List PyVal)
  | [] => .ok []
  | m :: rest =>
    match chatInfoOf chat with
    | .error e => .error e
    | .ok info =>
      match pySetItem m "chat_info" info with
      | .error e => .error e
      | .ok m2 =>
        match tagMessages chat rest with
        | .error e => .error e
        | .ok r => .ok (m2 :: r)

/-- Embeds the `for chat in chats` loop of the `unipile_get_recent_messages`
branch of `handle_call_tool` (server.py:238-250): chats with a falsy `id`
are skipped, a per-chat result that is not a list (i.e. an error payload
from `get_chat_messages`) is silently skipped, and list results are tagged
and concatenated. -/
def tagLoop (loads : String → Except String PyVal)
    (perChat : String → List PyVal) (batch : PyVal) :
    List PyVal → List PyVal → Except PyErr (List PyVal)
  | [], acc => .ok acc
  | chat :: rest, acc =>
    match pyDictGet chat "id" with
    | .error e => .error e
    | .ok cid =>
      if isTruthy cid then
        match UnipileWrapper.get_chat_messages loads (perChat (pyStr cid)) batch with
        | .list ms =>
          match tagMessages chat ms with
          | .error e => .error e
          | .ok tagged => tagLoop loads perChat batch rest (acc ++ tagged)
        | _ => tagLoop loads perChat batch rest acc
      else tagLoop loads perChat batch rest acc

/-- Embeds the body of the `try` block of `handle_call_tool`
(server.py:210-259), producing the text payload of the returned
`TextContent`.  `accountsResp` is the transport result behind
`GET /api/v1/accounts`; `perChat` is the upstream page sequence per chat. -/
def handle_call_tool_body (loads : String → Except String PyVal)
    (accountsResp : Except PyErr PyVal) (perChat : String → List PyVal)
    (name : String) (arguments : PyVal) : Except PyErr PyVal :=
  if name == "unipile_get_accounts" then
    .ok (UnipileWrapper.get_accounts accountsResp)
  else if name == "unipile_get_recent_messages" then
    if isTruthy arguments = false then
      .error (.valueError "Missing arguments for get_recent_messages")
    else
      match pyGetItem arguments "account_id" with
      | .error e => .error e
      | .ok account_id =>
        match pyDictGetD arguments "batch_size" (.int 10) with
        | .error e => .error e
        | .ok batch =>
          let chats := UnipileWrapper.get_chats account_id batch
          if isErrorDict chats then .ok chats
          else
            match iterElems chats with
            | .error e => .error e
            | .ok chatList =>
              match tagLoop loads perChat batch chatList [] with
              | .error e => .error e
              | .ok msgs => .ok (.list msgs)
  else .error (.valueError ("Unknown tool: " ++ name))

/-- Embeds `handle_call_tool` (server.py:205-268): the outermost
`except Exception` converts every raised error into the uniform
`errDict` text payload, so the handler is total and the external host
never receives a raw fault. -/
def handle_call_tool (loads : String → Except String PyVal)
    (accountsResp : Except PyErr PyVal) (perChat : String → List PyVal)
    (name : String) (arguments : PyVal) : PyVal :=
  match handle_call_tool_body loads accountsResp perChat name arguments with
  | .ok v => v
  | .error e => errDict (pyErrStr e)

/-- A conversation participant with the full expected shape (structured
`firstName` and `lastName` under `participantType.member`, keyed by
`backendUrn`), as in the spec's worked example. -/
def adaParticipant : PyVal :=
  .dict [("backendUrn", .str "urn:1"),
         ("participantType", .dict [("member", .dict
            [("firstName", .dict [("text", .str "Ada")]),
             ("lastName", .dict [("text", .str "Lovelace")])])])]

/-- The parsed `original` payload of the spec's worked example. -/
def adaOriginal : PyVal :=
  .dict [("conversation", .dict [("conversationParticipants", .list [adaParticipant])])]

/-- The person entry the worked example expects for `urn:1`. -/
def adaEntry : PyVal :=
  .dict [("name", .str "Ada Lovelace"), ("headline", .str ""), ("pronoun", .str "")]

/-- A participant that passes the guard checks of server.py:39-41 (it has
`participantType.member` with a structured truthy `firstName`) but lacks
the `backendUrn` key, so `participant["backendUrn"]` at server.py:47
raises `KeyError`. -/
def noUrnParticipant : PyVal :=
  .dict [("participantType", .dict [("member", .dict
            [("firstName", .dict [("text", .str "Bob")])])])]

/-- Wraps a participant list into the shape `_extract_person_info`
traverses: `conversation.conversationParticipants`. -/
def convWrap (parts : List PyVal) : PyVal :=
  .dict [("conversation", .dict [("conversationParticipants", .list parts)])]

/-- Accumulates the non-skipped participant entries in order, mirroring the
`person_info` dictionary updates of the extraction loop. -/
def collectOk : List (Option (String × PyVal)) → List (String × PyVal) →
    List (String × PyVal)
  | [], acc => acc
  | none :: rest, acc => collectOk rest acc
  | some (k, v) :: rest, acc => collectOk rest (insertAssoc acc k v)

/-- A `MessageList` page envelope whose `items` array is `its` and whose
cursor is present and truthy (a mid-stream page). -/
def IsMidPage (r : PyVal) (its : List PyVal) : Prop :=
  pyDictGetD r "object" PyVal.null = Except.ok (PyVal.str "MessageList")
  ∧ pyDictGetD r "items" (PyVal.list []) = Except.ok (PyVal.list its)
  ∧ ∃ c, pyDictGetD r "cursor" PyVal.null = Except.ok c ∧ isTruthy c = true

/-- A `MessageList` page envelope whose `items` array is `its` and whose
cursor is absent, null, or otherwise falsy (a final page). -/
def IsLastPage (r : PyVal) (its : List PyVal) : Prop :=
  pyDictGetD r "object" PyVal.null = Except.ok (PyVal.str "MessageList")
  ∧ pyDictGetD r "items" (PyVal.list []) = Except.ok (PyVal.list its)
  ∧ ∃ c, pyDictGetD r "cursor" PyVal.null = Except.ok c ∧ isTruthy c = false

/-- Concrete mid-stream page used to instantiate the pagination theorem. -/
def pageA : PyVal :=
  .dict [("object", .str "MessageList"),
         ("items", .list [.str "m1", .str "m2"]), ("cursor", .str "c1")]

/-- Concrete final page (null cursor) used to instantiate the pagination
theorem. -/
def pageB : PyVal :=
  .dict [("object", .str "MessageList"),
         ("items", .list [.str "m3"]), ("cursor", PyVal.null)]

/-- Claim C1.  The claim asserts that a per-account aggregation over an
account with zero chats yields an empty message list, not an error
payload.  The code cannot exhibit this: `UnipileWrapper.get_all_messages`
first calls `UnipileWrapper.get_chats`, whose call
`self.client.get_chats(account_id=..., limit=...)` (server.py:101) raises
`TypeError` — `UnipileClient.get_chats` (unipile_client.py:43) accepts no
keyword arguments — before any HTTP request is made, so the upstream chat
listing (empty or not) is never consulted and the result is always the
uniform error payload.  This theorem evaluates the model at the failing
input `account_id = "acc1"`, `limit = 10`. -/
theorem c1_zero_chat_aggregation_returns_error_payload :
    UnipileWrapper.get_all_messages (fun _ => Except.error "x") (fun _ => [])
      (.str "acc1") (.int 10) = errDict UnipileWrapper.getChatsKwargMsg
    ∧ isErrorDict (errDict UnipileWrapper.getChatsKwargMsg) = true
    ∧ PyVal.isList (errDict UnipileWrapper.getChatsKwargMsg) = false :=
  ⟨rfl, rfl, rfl⟩

/-- Claim C2.  The claim asserts that a per-account fetch tags every
produced message with its chat's metadata and concatenates per-chat lists
in order.  The code never produces any message: the fetch dies in
`UnipileWrapper.get_chats` with the keyword-argument `TypeError` (see
`UnipileWrapper.get_chats_body`) and the tool handler returns the error
payload.  This theorem evaluates the tool path at a well-formed input
(an existing account with one chat worth of messages upstream): the
result is the error payload, not a list of tagged messages. -/
theorem c2_per_account_fetch_returns_error_payload_not_tagged_messages :
    handle_call_tool (fun _ => Except.error "x")
      (Except.ok (.dict [("object", .str "AccountList"), ("items", .list [])]))
      (fun _ => [pageB])
      "unipile_get_recent_messages" (.dict [("account_id", .str "acc1")])
      = errDict UnipileWrapper.getChatsKwargMsg
    ∧ PyVal.isList (errDict UnipileWrapper.getChatsKwargMsg) = false :=
  ⟨rfl, rfl⟩

/-- Truthiness of the Python `or` fallback: truthy iff either side is. -/
theorem optTruthy_pyOrStr (a b : Option String) :
    UnipileWrapper.optTruthy (UnipileWrapper.pyOrStr a b)
      = (UnipileWrapper.optTruthy a || UnipileWrapper.optTruthy b) := by
  cases a with
  | none => simp [UnipileWrapper.pyOrStr, UnipileWrapper.optTruthy]
  | some s =>
    by_cases h : s = ""
    · simp [UnipileWrapper.pyOrStr, UnipileWrapper.optTruthy, h]
    · simp [UnipileWrapper.pyOrStr, UnipileWrapper.optTruthy, h]

/-- Claim C9: if the connection string is falsy (absent or empty) in both
the constructor argument and the environment, construction fails with the
DSN error message; if the connection string resolves but the API key is
falsy in both places, construction fails with the API-key error message.
In both cases `UnipileWrapper.init` never reaches the `ClientState`
construction, and the model performs no network call anywhere. -/
theorem c9_missing_secret_fails_construction :
    (∀ (dsn0 key0 : Option String) (env : String → Option String),
      UnipileWrapper.optTruthy dsn0 = false →
      UnipileWrapper.optTruthy (env "UNIPILE_DSN") = false →
      UnipileWrapper.init dsn0 key0 env = .error UnipileWrapper.dsnRequiredMsg)
    ∧ (∀ (dsn0 key0 : Option String) (env : String → Option String),
      UnipileWrapper.optTruthy (UnipileWrapper.pyOrStr dsn0 (env "UNIPILE_DSN")) = true →
      UnipileWrapper.optTruthy key0 = false →
      UnipileWrapper.optTruthy (env "UNIPILE_API_KEY") = false →
      UnipileWrapper.init dsn0 key0 env = .error UnipileWrapper.apiKeyRequiredMsg) := by
  constructor
  · intro dsn0 key0 env h1 h2
    simp [UnipileWrapper.init, optTruthy_pyOrStr, h1, h2]
  · intro dsn0 key0 env h1 h2 h3
    simp [UnipileWrapper.init, optTruthy_pyOrStr, h1, h2, h3]

/-- Witness for C9: a missing DSN (argument `None`, environment empty) and
a missing API key (DSN supplied, key absent everywhere) both fail with
their respective messages. -/
theorem c9_missing_secret_fails_construction_witness :
    UnipileWrapper.init none (some "key") (fun _ => none)
      = .error UnipileWrapper.dsnRequiredMsg
    ∧ UnipileWrapper.init (some "api8.unipile.com:13851") none (fun _ => none)
      = .error UnipileWrapper.apiKeyRequiredMsg :=
  ⟨c9_missing_secret_fails_construction.1 none (some "key") (fun _ => none) rfl rfl,
   c9_missing_secret_fails_construction.2 (some "api8.unipile.com:13851") none
     (fun _ => none) rfl rfl rfl⟩

/-- Claim C5: normalizing a message whose `original` field is absent, or
present as a string that fails to parse, yields the reduced core message
with no `participants` key; the catch-all structure of
`_extract_core_message` means neither case raises past the normalizer
(the model is a total function). -/
theorem c5_missing_or_unparseable_original_no_participants :
    (∀ (loads : String → Except String PyVal) (d : List (String × PyVal)),
      dLookup d "original" = none →
      UnipileWrapper._extract_core_message loads (.dict d)
        = .dict (UnipileWrapper.coreBase d)
      ∧ dLookup (UnipileWrapper.coreBase d) "participants" = none)
    ∧ (∀ (loads : String → Except String PyVal) (d : List (String × PyVal))
        (s m : String),
      dLookup d "original" = some (.str s) → loads s = .error m →
      UnipileWrapper._extract_core_message loads (.dict d)
        = .dict (UnipileWrapper.coreBase d)
      ∧ dLookup (UnipileWrapper.coreBase d) "participants" = none) := by
  constructor
  · intro loads d h
    refine ⟨?_, rfl⟩
    simp [UnipileWrapper._extract_core_message,
      UnipileWrapper.extract_core_message_body, h]
  · intro loads d s m h1 h2
    refine ⟨?_, rfl⟩
    simp [UnipileWrapper._extract_core_message,
      UnipileWrapper.extract_core_message_body, UnipileWrapper.tryLoads, h1, h2]

/-- Witness for C5: a message with no `original`, and a message whose
`original` is the truncated string `"tr"` under a parser that rejects it,
both normalize to the bare core message without participants. -/
theorem c5_missing_or_unparseable_original_witness :
    (UnipileWrapper._extract_core_message (fun _ => Except.error "Expecting value")
        (.dict [("id", .str "m1")])
        = .dict (UnipileWrapper.coreBase [("id", .str "m1")])
      ∧ dLookup (UnipileWrapper.coreBase [("id", .str "m1")]) "participants" = none)
    ∧ (UnipileWrapper._extract_core_message (fun _ => Except.error "Expecting value")
        (.dict [("id", .str "m1"), ("original", .str "tr")])
        = .dict (UnipileWrapper.coreBase [("id", .str "m1"), ("original", .str "tr")])
      ∧ dLookup (UnipileWrapper.coreBase [("id", .str "m1"), ("original", .str "tr")])
          "participants" = none) :=
  ⟨c5_missing_or_unparseable_original_no_participants.1
      (fun _ => Except.error "Expecting value") [("id", .str "m1")] rfl,
   c5_missing_or_unparseable_original_no_participants.2
      (fun _ => Except.error "Expecting value")
      [("id", .str "m1"), ("original", .str "tr")] "tr" "Expecting value" rfl rfl⟩

/-- Claim C6: normalizing a message whose `original` parses to the worked
example payload produces exactly the participant map mapping `urn:1` to
name "Ada Lovelace" with empty headline and pronoun. -/
theorem c6_worked_participant_extraction :
    ∀ (loads : String → Except String PyVal) (d : List (String × PyVal)) (s : String),
      dLookup d "original" = some (.str s) → loads s = .ok adaOriginal →
      UnipileWrapper._extract_core_message loads (.dict d)
        = .dict (UnipileWrapper.coreBase d
            ++ [("participants", .dict [("urn:1", adaEntry)])]) := by
  intro loads d s h1 h2
  have hpi : UnipileWrapper._extract_person_info adaOriginal = [("urn:1", adaEntry)] := rfl
  simp [UnipileWrapper._extract_core_message,
    UnipileWrapper.extract_core_message_body, UnipileWrapper.tryLoads, h1, h2, hpi]

/-- Witness for C6 at a concrete message and parser. -/
theorem c6_worked_participant_extraction_witness :
    UnipileWrapper._extract_core_message (fun _ => Except.ok adaOriginal)
      (.dict [("original", .str "o")])
      = .dict (UnipileWrapper.coreBase [("original", .str "o")]
          ++ [("participants", .dict [("urn:1", adaEntry)])]) :=
  c6_worked_participant_extraction (fun _ => Except.ok adaOriginal)
    [("original", .str "o")] "o" rfl rfl

/-- Claim C10: when `original` is present but not a string, `json.loads`
raises `TypeError`, which the inner `except json.JSONDecodeError` does not
catch, so the outer handler of `_extract_core_message` returns the input
dictionary unchanged; and the public per-chat fetch maps the normalizer
over the raw messages, so such un-normalized raw messages are emitted
alongside normalized ones. -/
theorem c10_unexpected_exception_returns_raw_message :
    (∀ (loads : String → Except String PyVal) (d : List (String × PyVal)) (v : PyVal),
      dLookup d "original" = some v → PyVal.isStr v = false →
      UnipileWrapper._extract_core_message loads (.dict d) = .dict d)
    ∧ (∀ (loads : String → Except String PyVal) (batch : PyVal)
        (responses msgs : List PyVal) (n : Nat),
      UnipileClient.get_all_messages_pages batch responses = .ok (msgs, n) →
      UnipileWrapper.get_chat_messages loads responses batch
        = .list (msgs.map (UnipileWrapper._extract_core_message loads))) := by
  constructor
  · intro loads d v h1 h2
    cases v <;>
      simp_all [UnipileWrapper._extract_core_message,
        UnipileWrapper.extract_core_message_body, UnipileWrapper.tryLoads,
        PyVal.isStr]
  · intro loads batch responses msgs n h
    simp [UnipileWrapper.get_chat_messages, UnipileClient.get_messages_as_list, h]

/-- Witness for C10: a message whose `original` is JSON `null` passes
through unchanged, and a one-page chat fetch emits it un-normalized next
to a normalized message. -/
theorem c10_unexpected_exception_returns_raw_message_witness :
    UnipileWrapper._extract_core_message (fun _ => Except.error "bad")
      (.dict [("id", .str "m1"), ("original", PyVal.null)])
      = .dict [("id", .str "m1"), ("original", PyVal.null)]
    ∧ UnipileWrapper.get_chat_messages (fun _ => Except.error "bad") [pageB] (.int 5)
      = .list ([.str "m3"].map
          (UnipileWrapper._extract_core_message (fun _ => Except.error "bad"))) :=
  ⟨c10_unexpected_exception_returns_raw_message.1 (fun _ => Except.error "bad")
      [("id", .str "m1"), ("original", PyVal.null)] PyVal.null rfl rfl,
   c10_unexpected_exception_returns_raw_message.2 (fun _ => Except.error "bad")
      (.int 5) [pageB] [.str "m3"] 1 rfl⟩

/-- Claim C4: at the protocol boundary of `handle_call_tool`, an unknown
tool name, missing arguments, and a transport failure during account
listing are all converted into the uniform error payload.  The model of
the handler is a total function built by catching the `Except` result of
`handle_call_tool_body`, so no raw fault crosses the boundary. -/
theorem c4_tool_errors_become_error_payload :
    (∀ (loads : String → Except String PyVal) (accountsResp : Except PyErr PyVal)
        (perChat : String → List PyVal) (name : String) (arguments : PyVal),
      name ≠ "unipile_get_accounts" → name ≠ "unipile_get_recent_messages" →
      handle_call_tool loads accountsResp perChat name arguments
        = errDict ("Unknown tool: " ++ name))
    ∧ (∀ (loads : String → Except String PyVal) (accountsResp : Except PyErr PyVal)
        (perChat : String → List PyVal) (arguments : PyVal),
      isTruthy arguments = false →
      handle_call_tool loads accountsResp perChat
        "unipile_get_recent_messages" arguments
        = errDict "Missing arguments for get_recent_messages")
    ∧ (∀ (loads : String → Except String PyVal) (perChat : String → List PyVal)
        (arguments : PyVal) (e : PyErr),
      handle_call_tool loads (.error e) perChat "unipile_get_accounts" arguments
        = errDict (pyErrStr e)) := by
  refine ⟨?_, ?_, ?_⟩
  · intro loads accountsResp perChat name arguments h1 h2
    have e1 : (name == "unipile_get_accounts") = false := by
      simp [h1]
    have e2 : (name == "unipile_get_recent_messages") = false := by
      simp [h2]
    simp [handle_call_tool, handle_call_tool_body, e1, e2, pyErrStr]
  · intro loads accountsResp perChat arguments h
    simp [handle_call_tool, handle_call_tool_body, h, pyErrStr]
  · intro loads perChat arguments e
    simp [handle_call_tool, handle_call_tool_body,
      UnipileWrapper.get_accounts, UnipileClient.get_accounts]

/-- Witness for C4: an unknown tool name, a `None` arguments object, and a
failed accounts transport each yield the corresponding error payload. -/
theorem c4_tool_errors_become_error_payload_witness :
    handle_call_tool (fun _ => Except.error "x") (.ok PyVal.null) (fun _ => [])
      "bogus_tool" PyVal.null = errDict ("Unknown tool: " ++ "bogus_tool")
    ∧ handle_call_tool (fun _ => Except.error "x") (.ok PyVal.null) (fun _ => [])
      "unipile_get_recent_messages" PyVal.null
      = errDict "Missing arguments for get_recent_messages"
    ∧ handle_call_tool (fun _ => Except.error "x")
      (.error (.requestError "boom")) (fun _ => [])
      "unipile_get_accounts" PyVal.null = errDict (pyErrStr (.requestError "boom")) :=
  ⟨c4_tool_errors_become_error_payload.1 (fun _ => Except.error "x") (.ok PyVal.null)
     (fun _ => []) "bogus_tool" PyVal.null (by decide) (by decide),
   c4_tool_errors_become_error_payload.2.1 (fun _ => Except.error "x") (.ok PyVal.null)
     (fun _ => []) PyVal.null rfl,
   c4_tool_errors_become_error_payload.2.2 (fun _ => Except.error "x") (fun _ => [])
     PyVal.null (.requestError "boom")⟩

/-- Claim C8: a response whose `object` discriminator does not match the
expected envelope kind makes `get_accounts` and `get_chats` return the
empty list, and makes the pagination driver stop after that single call
yielding nothing, instead of raising. -/
theorem c8_envelope_mismatch_empty_collection :
    (∀ (d : List (String × PyVal)),
      pyEqStr ((dLookup d "object").getD PyVal.null) "AccountList" = false →
      UnipileClient.get_accounts (.ok (.dict d)) = .ok (.list []))
    ∧ (∀ (d : List (String × PyVal)),
      pyEqStr ((dLookup d "object").getD PyVal.null) "ChatList" = false →
      UnipileClient.get_chats (.ok (.dict d)) = .ok (.list []))
    ∧ (∀ (batch : PyVal) (d : List (String × PyVal)) (rest : List PyVal),
      pyEqStr ((dLookup d "object").getD PyVal.null) "MessageList" = false →
      UnipileClient.get_all_messages_pages batch (.dict d :: rest)
        = .ok ([], 1)) := by
  refine ⟨?_, ?_, ?_⟩
  · intro d h
    simp [UnipileClient.get_accounts, pyDictGetD, h]
  · intro d h
    simp [UnipileClient.get_chats, pyDictGetD, h]
  · intro batch d rest h
    simp [UnipileClient.get_all_messages_pages, pyDictGetD, h]

/-- Witness for C8: a `ChatList` envelope fed to the accounts endpoint, an
`AccountList` envelope fed to the chats endpoint, and a first message page
with no discriminator at all, each produce the empty collection. -/
theorem c8_envelope_mismatch_empty_collection_witness :
    UnipileClient.get_accounts (.ok (.dict [("object", .str "ChatList")]))
      = .ok (.list [])
    ∧ UnipileClient.get_chats (.ok (.dict [("object", .str "AccountList")]))
      = .ok (.list [])
    ∧ UnipileClient.get_all_messages_pages (.int 100) [.dict [], pageA]
      = .ok ([], 1) :=
  ⟨c8_envelope_mismatch_empty_collection.1 [("object", .str "ChatList")] rfl,
   c8_envelope_mismatch_empty_collection.2.1 [("object", .str "AccountList")] rfl,
   c8_envelope_mismatch_empty_collection.2.2 (.int 100) [] [pageA] rfl⟩

/-- Claim C3: over a well-formed page sequence (every page a `MessageList`
envelope, a truthy cursor on all but the last page, a falsy cursor on the
last), the pagination driver yields exactly the concatenation of the
pages' items in upstream order and makes exactly one transport call per
page; and whenever the first page's cursor is absent or null, exactly one
transport call is made, for every requested batch size. -/
theorem c3_pagination_driver_yields_all_items_in_order :
    (∀ (batch : PyVal) (front : List (PyVal × List PyVal)) (last : PyVal)
        (lits : List PyVal),
      (∀ p ∈ front, IsMidPage p.1 p.2) → IsLastPage last lits →
      UnipileClient.get_all_messages_pages batch (front.map Prod.fst ++ [last])
        = .ok ((front.map Prod.snd).flatten ++ lits, front.length + 1))
    ∧ (∀ (batch first : PyVal) (fits : List PyVal) (rest : List PyVal),
      IsLastPage first fits →
      UnipileClient.get_all_messages_pages batch (first :: rest)
        = .ok (fits, 1)) := by
  have hlast : ∀ (batch first : PyVal) (fits : List PyVal) (rest : List PyVal),
      IsLastPage first fits →
      UnipileClient.get_all_messages_pages batch (first :: rest) = .ok (fits, 1) := by
    intro batch first fits rest hl
    obtain ⟨h1, h2, c, hc, hct⟩ := hl
    simp [UnipileClient.get_all_messages_pages, h1, h2, hc, hct, iterElems, pyEqStr]
  refine ⟨?_, hlast⟩
  intro batch front
  induction front with
  | nil =>
    intro last lits _ hl
    simpa using hlast batch last lits [] hl
  | cons p front ih =>
    intro last lits hf hl
    obtain ⟨h1, h2, c, hc, hct⟩ := hf p (by simp)
    have ih' := ih last lits (fun q hq => hf q (by simp [hq])) hl
    simp [UnipileClient.get_all_messages_pages, h1, h2, hc, hct, iterElems,
      pyEqStr, ih']

/-- Witness for C3: two upstream pages holding three messages produce the
three messages in order with two transport calls, and a first page with a
null cursor stops after one call even though more responses would be
available. -/
theorem c3_pagination_driver_witness :
    UnipileClient.get_all_messages_pages (.int 5) [pageA, pageB]
      = .ok ([.str "m1", .str "m2", .str "m3"], 2)
    ∧ UnipileClient.get_all_messages_pages (.int 7) [pageB, pageA]
      = .ok ([.str "m3"], 1) := by
  constructor
  · have h := c3_pagination_driver_yields_all_items_in_order.1 (.int 5)
      [(pageA, [.str "m1", .str "m2"])] pageB [.str "m3"]
      (by intro q hq
          rw [List.mem_singleton] at hq
          subst hq
          exact ⟨rfl, rfl, ⟨.str "c1", rfl, rfl⟩⟩)
      ⟨rfl, rfl, ⟨PyVal.null, rfl, rfl⟩⟩
    simpa using h
  · exact c3_pagination_driver_yields_all_items_in_order.2 (.int 7) pageB
      [.str "m3"] [pageA] ⟨rfl, rfl, ⟨PyVal.null, rfl, rfl⟩⟩

/-- The extraction loop collects exactly the non-skipped participant
entries, in order, when no participant raises. -/
theorem extractLoop_collectOk :
    ∀ (ps : List (PyVal × Option (String × PyVal))) (acc : List (String × PyVal)),
      (∀ q ∈ ps, UnipileWrapper.processParticipant q.1 = .ok q.2) →
      UnipileWrapper.extractLoop (ps.map Prod.fst) acc
        = .ok (collectOk (ps.map Prod.snd) acc) := by
  intro ps
  induction ps with
  | nil =>
    intro acc _
    simp [UnipileWrapper.extractLoop, collectOk]
  | cons q ps ih =>
    intro acc h
    have hq := h q (by simp)
    have hrest : ∀ r ∈ ps, UnipileWrapper.processParticipant r.1 = .ok r.2 :=
      fun r hr => h r (by simp [hr])
    cases hsnd : q.2 with
    | none =>
      rw [hsnd] at hq
      simp [UnipileWrapper.extractLoop, hq, hsnd, collectOk, ih acc hrest]
    | some kv =>
      obtain ⟨k, v⟩ := kv
      rw [hsnd] at hq
      simp [UnipileWrapper.extractLoop, hq, hsnd, collectOk,
        ih (insertAssoc acc k v) hrest]

/-- A raising participant aborts the whole extraction loop with its
error, regardless of what was already accumulated. -/
theorem extractLoop_abort :
    ∀ (pre : List (PyVal × Option (String × PyVal))) (bad : PyVal) (e : PyErr)
      (rest : List PyVal) (acc : List (String × PyVal)),
      (∀ q ∈ pre, UnipileWrapper.processParticipant q.1 = .ok q.2) →
      UnipileWrapper.processParticipant bad = .error e →
      UnipileWrapper.extractLoop (pre.map Prod.fst ++ bad :: rest) acc
        = .error e := by
  intro pre
  induction pre with
  | nil =>
    intro bad e rest acc _ hbad
    simp [UnipileWrapper.extractLoop, hbad]
  | cons q pre ih =>
    intro bad e rest acc h hbad
    have hq := h q (by simp)
    have hrest : ∀ r ∈ pre, UnipileWrapper.processParticipant r.1 = .ok r.2 :=
      fun r hr => h r (by simp [hr])
    cases hsnd : q.2 with
    | none =>
      rw [hsnd] at hq
      simp [UnipileWrapper.extractLoop, hq, ih bad e rest acc hrest hbad]
    | some kv =>
      obtain ⟨k, v⟩ := kv
      rw [hsnd] at hq
      simp [UnipileWrapper.extractLoop, hq, ih bad e rest _ hrest hbad]

/-- Counterexample to claim C7 as stated.  `noUrnParticipant` lacks the
expected shape (no `backendUrn`), and `adaParticipant` has it; the claim
says the former is silently skipped while the latter is still included.
Instead the extraction returns the empty map for the pair — the good
participant is dropped — although alone `adaParticipant` does produce its
entry; the missing `backendUrn` raises `KeyError` inside the loop and the
catch-all of `_extract_person_info` discards everything. -/
theorem c7_counterexample_good_participant_dropped :
    UnipileWrapper._extract_person_info (convWrap [adaParticipant, noUrnParticipant])
      = []
    ∧ UnipileWrapper._extract_person_info (convWrap [adaParticipant])
      = [("urn:1", adaEntry)]
    ∧ UnipileWrapper.processParticipant noUrnParticipant
      = .error (.keyError "backendUrn") :=
  ⟨rfl, rfl, rfl⟩

/-- Claim C7 as amended: participants on which the per-participant
processing returns `none` (failing the guarded checks of server.py:39-41:
no `participantType.member`, or `firstName` missing, falsy or not
structured) are silently skipped and the participants that produce
entries are all included, in order; but a participant on which processing
raises (e.g. one passing the guards yet lacking `backendUrn`) aborts the
extraction and the catch-all returns the empty map, dropping even the
well-shaped participants. -/
theorem c7_amended_guard_skips_and_keyerror_aborts :
    (∀ (ps : List (PyVal × Option (String × PyVal))),
      (∀ q ∈ ps, UnipileWrapper.processParticipant q.1 = .ok q.2) →
      UnipileWrapper._extract_person_info (convWrap (ps.map Prod.fst))
        = collectOk (ps.map Prod.snd) [])
    ∧ (∀ (pre : List (PyVal × Option (String × PyVal))) (bad : PyVal) (e : PyErr)
        (rest : List PyVal),
      (∀ q ∈ pre, UnipileWrapper.processParticipant q.1 = .ok q.2) →
      UnipileWrapper.processParticipant bad = .error e →
      UnipileWrapper._extract_person_info
        (convWrap (pre.map Prod.fst ++ bad :: rest)) = []) := by
  constructor
  · intro ps h
    have hb : UnipileWrapper.extract_person_info_body (convWrap (ps.map Prod.fst))
        = UnipileWrapper.extractLoop (ps.map Prod.fst) [] := rfl
    simp [UnipileWrapper._extract_person_info, hb, extractLoop_collectOk ps [] h]
  · intro pre bad e rest h hbad
    have hb : UnipileWrapper.extract_person_info_body
          (convWrap (pre.map Prod.fst ++ bad :: rest))
        = UnipileWrapper.extractLoop (pre.map Prod.fst ++ bad :: rest) [] := rfl
    simp [UnipileWrapper._extract_person_info, hb,
      extractLoop_abort pre bad e rest [] h hbad]

/-- Witness for the amended C7: a guard-skipped empty participant leaves
the well-shaped one's entry intact, while a raising participant empties
the whole map. -/
theorem c7_amended_guard_skips_witness :
    UnipileWrapper._extract_person_info (convWrap [adaParticipant, PyVal.dict []])
      = [("urn:1", adaEntry)]
    ∧ UnipileWrapper._extract_person_info (convWrap [noUrnParticipant, adaParticipant])
      = [] := by
  constructor
  · have h := c7_amended_guard_skips_and_keyerror_aborts.1
      [(adaParticipant, some ("urn:1", adaEntry)), (PyVal.dict [], none)]
      (by intro q hq
          rcases List.mem_cons.mp hq with rfl | h2
          · rfl
          · rcases List.mem_singleton.mp h2 with rfl
            rfl)
    simpa [collectOk, insertAssoc] using h
  · have h := c7_amended_guard_skips_and_keyerror_aborts.2 []
      noUrnParticipant (.keyError "backendUrn") [adaParticipant]
      (by intro q hq; cases hq) rfl
    simpa using h
